import Mathlib

/-!
Verification development for the wahl-bot client core: the authentication
service (`frontend/src/services/authService.js`, an `AuthService` class) and
the job tracker inside `frontend/src/components/SideBar.jsx`.

The JavaScript is single-threaded and cooperative; all network operations are
suspension points.  We embed the code as explicit state-passing functions:

* `AuthState` mirrors the mutable fields of the `AuthService` instance
  (`accessToken`, `tokenRefreshTimeout`, `_refreshPromise`).
* `World` tracks the ambient effects the claims talk about: the set of pending
  `setTimeout` timers (with their ids and delays), the number of refresh
  network calls issued, and a fresh-id counter for promises.
* Network outcomes are passed in explicitly (`FetchOutcome`, `PollOutcome`),
  so each function is the deterministic trace of the source code for a given
  sequence of responses.

Asynchronous functions are split at their suspension points where the claims
require it: `refreshStart` is the synchronous prefix of `refreshAccessToken`
(up to and including the `fetch` being issued and `_refreshPromise` being
assigned), and `refreshResume` is the continuation that runs once the fetch
settles.
-/

namespace WahlBot

/-- Mutable fields of the `AuthService` instance (constructor, lines 10-15 of
`authService.js`).  `_refreshPromise` is modelled by the id of the promise it
holds, `tokenRefreshTimeout` by the id of the armed timer. -/
structure AuthState where
  accessToken : Option String
  tokenRefreshTimeout : Option Nat
  refreshPromise : Option Nat
deriving DecidableEq, Repr

/-- A pending `setTimeout` timer: its id and the delay (ms) it was armed with.
Delays are `Int` because the JS arithmetic `(expiresIn - refreshBefore) * 1000`
can go negative for small expiries. -/
structure Timer where
  id : Nat
  delayMs : Int
deriving DecidableEq, Repr

/-- Ambient effect state: pending timers, count of refresh network calls
issued so far, and a fresh-id source for promises. -/
structure World where
  nextTimerId : Nat
  timers : List Timer
  refreshNetCalls : Nat
  nextPromiseId : Nat
deriving DecidableEq, Repr

/-- Effect of `clearTimeout(t)`: the timer with id `t` is no longer pending. -/
def clearTimeoutW (w : World) (t : Nat) : World :=
  { w with timers := w.timers.filter (fun tm => tm.id ≠ t) }

/-- Effect of `setTimeout(cb, d)`: arm a fresh timer with delay `d`, returning its id. -/
def setTimeoutW (w : World) (d : Int) : World × Nat :=
  ({ w with nextTimerId := w.nextTimerId + 1,
            timers := w.timers ++ [⟨w.nextTimerId, d⟩] }, w.nextTimerId)

/-- JS expression `data.expires_in || 30 * 60` (lines 45 and 104): `undefined` (here `none`)
and `0` are falsy in JS, so both select the 30-minute default. -/
def effExpiresIn : Option Int → Int
  | none => 1800
  | some v => if v = 0 then 1800 else v

/-- Line 46: `Math.max(60, Math.floor(expiresIn * 0.2))`.  For integer
`expiresIn` the double product `expiresIn * 0.2` floors to the mathematical
`⌊expiresIn / 5⌋`, i.e. `Int.fdiv expiresIn 5`. -/
def refreshBeforeSec (expiresIn : Int) : Int :=
  max 60 (Int.fdiv expiresIn 5)

/-- Line 47: `refreshIn = (expiresIn - refreshBefore) * 1000` (the same
arithmetic appears at lines 104-106 of `refreshAccessToken`). -/
def refreshInMs (expiresIn : Int) : Int :=
  (expiresIn - refreshBeforeSec expiresIn) * 1000

/-- Method `scheduleTokenRefresh(delay)` (lines 57-72): clear the recorded pending
timer if any, then arm a fresh one and record its id. -/
def scheduleTokenRefresh (s : AuthState) (w : World) (delay : Int) :
    AuthState × World :=
  let w1 := match s.tokenRefreshTimeout with
    | some t => clearTimeoutW w t
    | none => w
  let p := setTimeoutW w1 delay
  ({ s with tokenRefreshTimeout := some p.2 }, p.1)

/-- Success path of `login` after the response parses (lines 39-50): store the
access token, compute the refresh delay from `expires_in`, schedule refresh.
`expiry` is the `expires_in` field of the response JSON (`none` if absent). -/
def loginSuccess (s : AuthState) (w : World) (tok : String)
    (expiry : Option Int) : AuthState × World :=
  let s1 := { s with accessToken := some tok }
  let expiresIn := effExpiresIn expiry
  let refreshIn := refreshInMs expiresIn
  scheduleTokenRefresh s1 w refreshIn

/-- Outcome of the refresh round-trip started inside `refreshAccessToken`:
the `fetch` (or the body parse) rejects, or the response arrives with
`ok = false`, or it arrives ok carrying `access_token` and `expires_in`. -/
inductive FetchOutcome where
  | throws
  | notOk
  | ok (token : String) (expiry : Option Int)
deriving DecidableEq, Repr

/-- Synchronous prefix of `refreshAccessToken` (lines 81-113): if
`_refreshPromise` is set, return it with no new network call (lines 83-85);
otherwise the async IIFE runs up to `await fetch` — issuing exactly one
refresh network call — and the new promise is stored and returned.  The
returned `Nat` is the promise the caller awaits. -/
def refreshStart (s : AuthState) (w : World) : AuthState × World × Nat :=
  match s.refreshPromise with
  | some p => (s, w, p)
  | none =>
    let p := w.nextPromiseId
    ({ s with refreshPromise := some p },
     { w with refreshNetCalls := w.refreshNetCalls + 1,
              nextPromiseId := w.nextPromiseId + 1 },
     p)

/-- Continuation of `refreshAccessToken` once the fetch settles
(lines 94-110).  Returns the post-state and whether the refresh promise
resolves (`true`) or rejects (`false`).
.throws: the `await` rejects, so none of lines 94-110 run — note that
`_refreshPromise` is NOT cleared on this path.
.notOk: line 95 clears `_refreshPromise`, line 96 throws.
.ok: store the token, schedule the next refresh, clear `_refreshPromise`. -/
def refreshResume (s : AuthState) (w : World) (o : FetchOutcome) :
    AuthState × World × Bool :=
  match o with
  | .throws => (s, w, false)
  | .notOk => ({ s with refreshPromise := none }, w, false)
  | .ok tok expiry =>
    let s1 := { s with accessToken := some tok }
    let p := scheduleTokenRefresh s1 w (refreshInMs (effExpiresIn expiry))
    ({ p.1 with refreshPromise := none }, p.2, true)

/-- A burst of `n` calls to `refreshAccessToken` whose synchronous prefixes run back to
back (cooperative single-threaded interleaving while the fetch of the first
is outstanding).  Returns the final state and the list of promises the
callers received, in order. -/
def refreshBurst : Nat → AuthState → World → AuthState × World × List Nat
  | 0, s, w => (s, w, [])
  | n + 1, s, w =>
    let r1 := refreshStart s w
    let r2 := refreshBurst n r1.1 r1.2.1
    (r2.1, r2.2.1, r1.2.2 :: r2.2.2)

/-- Method `logout` (lines 187-205): the revocation fetch is wrapped in try/catch and
its outcome (`revokeOk`) only reaches `console.error`; afterwards the access
token is cleared unconditionally and the recorded refresh timer, if any, is
cancelled and nulled. -/
def logout (s : AuthState) (w : World) (revokeOk : Bool) : AuthState × World :=
  let s1 := { s with accessToken := none }
  match s1.tokenRefreshTimeout with
  | some t => ({ s1 with tokenRefreshTimeout := none }, clearTimeoutW w t)
  | none => (s1, w)

/-- Observable trace of one `apiRequest` call: the `Authorization` header of
each request attempt sent to the target url (in order), how many times
`refreshAccessToken` was invoked, how many times `logout` ran, whether the
call threw, and the HTTP status returned to the caller (`none` if it threw). -/
structure ApiTrace where
  sent : List (Option String)
  refreshAttempts : Nat
  logouts : Nat
  threw : Bool
  returned : Option Nat
deriving DecidableEq, Repr

/-- Header value `Bearer ${token}` (lines 128 and 157). -/
def bearer (tok : String) : String := "Bearer " ++ tok

/-- Method `apiRequest(url, options)` (lines 121-179) for a given environment:
`firstStatus` is the HTTP status of the first fetch, `refreshOutcome` is what
the refresh round-trip does if one is started, `retryStatus` the status of
the retried fetch.  Lines 123-129 attach `Authorization` only when a token is
held; line 152 tests for 401; line 154 awaits `refreshAccessToken`; line 157
reattaches the (new) token only if one is held; lines 165-169 resend once;
lines 170-175 catch a refresh failure, `logout`, redirect and rethrow.
A non-401 retried response — including a second 401 — is simply returned. -/
def apiRequest (s : AuthState) (w : World) (firstStatus : Nat)
    (refreshOutcome : FetchOutcome) (retryStatus : Nat) :
    AuthState × World × ApiTrace :=
  let hdr : Option String := s.accessToken.map bearer
  if firstStatus = 401 then
    let r1 := refreshStart s w
    let r2 := refreshResume r1.1 r1.2.1 refreshOutcome
    if r2.2.2 then
      let hdr2 := match r2.1.accessToken with
        | some t => some (bearer t)
        | none => hdr
      (r2.1, r2.2.1, ⟨[hdr, hdr2], 1, 0, false, some retryStatus⟩)
    else
      let l := logout r2.1 r2.2.1 true
      (l.1, l.2, ⟨[hdr], 1, 1, true, none⟩)
  else
    (s, w, ⟨[hdr], 0, 0, false, some firstStatus⟩)

/-- Modelled from the spec sentence for claim C3 only (refinement target, not
source code): `delay = (expiresIn − max(60, 0.2·expiresIn))` seconds, read
over exact arithmetic — the sentence has no floor. -/
def specDelaySec (expiresIn : ℚ) : ℚ :=
  expiresIn - max 60 (expiresIn / 5)

namespace SideBar

/-- JS truthiness of an optional string: `null`/`undefined` and the empty
string are falsy. -/
def truthy : Option String → Bool
  | none => false
  | some s => !s.isEmpty

/-- React state of the `SideBar` component that the tracked-task claims
touch (`useState` hooks, lines 15-30 of `SideBar.jsx`).  `none` stands for
JS `null`/`undefined`. -/
structure TrackerState where
  taskId : Option String
  taskStatus : Option String
  error : Option String
  loading : Bool
  programAction : String
  programName : String
  selectedProgram : String
deriving DecidableEq, Repr

/-- Line 38: the poll interval period, 5000 ms. -/
def pollIntervalMs : Nat := 5000

/-- The polling `useEffect` (lines 32-46) after React settles: an interval is
armed (with period `pollIntervalMs`) exactly when `taskId` is truthy and
`taskStatus === "processing"`; the cleanup clears it otherwise.  Returns the
period of the armed interval, or `none` when no interval is pending. -/
def pollingEffect (s : TrackerState) : Option Nat :=
  if truthy s.taskId ∧ s.taskStatus = some "processing" then some pollIntervalMs
  else none

/-- What one poll round-trip yields.  `apiRequest` is fetch-based, so an HTTP
error status does NOT throw: any response whose body parses lands in `reply`
with the destructured `status`, `task_id` and `error` fields (each `none`
when absent from the body — e.g. a 404 body `{detail: ...}` yields
`reply none none none`).  `throws` covers the exceptions that can actually
occur (network failure, refresh-failure rethrow from `apiRequest`, or
`resp.json()` failing to parse); `respStatus` is the `e.response?.status`
field the catch inspects — `none` for all of those error objects, since
fetch-style errors carry no `response` property. -/
inductive PollOutcome where
  | throws (respStatus : Option Nat)
  | reply (status : Option String) (tid : Option String) (taskError : Option String)
deriving DecidableEq, Repr

/-- JS `x || d` for an optional string (line 134): `null`/`undefined` and the
empty string fall through to the default. -/
def jsOrElse (x : Option String) (d : String) : String :=
  match x with
  | some v => if v.isEmpty then d else v
  | none => d

/-- Function `pollTaskStatus(id)` (lines 120-148).  On a parsed reply: line 125 stores
the status; lines 127-132 handle `completed` (when `task_id` is truthy):
refresh the program list, clear loading/action/name; lines 133-138 handle
`status == "failed"` or a truthy `error` field: record the error, clear
loading/action/selection.  On a throw (lines 140-147): unless
`e.response?.status === 404`, record an error and clear
loading/action/selection; `setTaskStatus` is never called on this path.
The returned `Bool` reports whether `getProgramList` (the completion
callback) was invoked. -/
def pollTaskStatus (s : TrackerState) (o : PollOutcome) : TrackerState × Bool :=
  match o with
  | .reply st tid terr =>
    let s1 := { s with taskStatus := st }
    if st = some "completed" ∧ truthy tid then
      ({ s1 with loading := false, taskStatus := some "completed",
                 programAction := "", programName := "" }, true)
    else if st = some "failed" ∨ truthy terr then
      ({ s1 with error := some (jsOrElse terr "Program task failed"),
                 loading := false, programAction := "",
                 selectedProgram := "" }, false)
    else
      (s1, false)
  | .throws respStatus =>
    if respStatus ≠ some 404 then
      ({ s with error := some "Failed to check Program status",
                loading := false, programAction := "",
                selectedProgram := "" }, false)
    else
      (s, false)

end SideBar

/-- Trace component of `apiRequest`. -/
def apiRequestTrace (s : AuthState) (w : World) (firstStatus : Nat)
    (refreshOutcome : FetchOutcome) (retryStatus : Nat) : ApiTrace :=
  (apiRequest s w firstStatus refreshOutcome retryStatus).2.2

/-! Shared helper lemmas. -/

/-- While a refresh is in flight (`_refreshPromise = some p`), any number of
further `refreshAccessToken` calls change nothing and all receive `p`. -/
theorem refreshBurst_inflight (n : Nat) (tok : Option String)
    (tt : Option Nat) (p : Nat) (w : World) :
    refreshBurst n ⟨tok, tt, some p⟩ w =
      (⟨tok, tt, some p⟩, w, List.replicate n p) := by
  induction n with
  | zero => rfl
  | succ k ih => simp [refreshBurst, refreshStart, ih, List.replicate]

/-- The method `scheduleTokenRefresh` always records and arms a fresh timer carrying the
requested delay, and bumps the timer id source. -/
theorem scheduleTokenRefresh_arms (s : AuthState) (w : World) (d : Int) :
    (scheduleTokenRefresh s w d).2.timers.getLast? = some ⟨w.nextTimerId, d⟩ ∧
    (scheduleTokenRefresh s w d).1.tokenRefreshTimeout = some w.nextTimerId ∧
    (scheduleTokenRefresh s w d).1.accessToken = s.accessToken := by
  cases hSt : s.tokenRefreshTimeout <;>
    simp [scheduleTokenRefresh, setTimeoutW, clearTimeoutW, hSt]

/-- A `logout` call always leaves the access token cleared. -/
theorem logout_clears_token (s : AuthState) (w : World) (b : Bool) :
    (logout s w b).1.accessToken = none := by
  cases hSt : s.tokenRefreshTimeout <;> simp [logout, hSt]

/-- If every pending timer is the one recorded in `tokenRefreshTimeout`, then
clearing that recorded timer empties the pending set. -/
theorem timers_cleared_of_owned (s : AuthState) (w : World)
    (h : ∀ tm ∈ w.timers, s.tokenRefreshTimeout = some tm.id) (t : Nat)
    (hSt : s.tokenRefreshTimeout = some t) :
    w.timers.filter (fun tm => tm.id ≠ t) = [] := by
  refine List.filter_eq_nil_iff.mpr fun tm hm => ?_
  have := h tm hm
  rw [hSt] at this
  simp_all

/-! Claim theorems. -/

/-- C3, counterexample: the claim schedules refresh at
`delay = expiresIn − max(60, 0.2·expiresIn)` seconds for every expiry, but
the code floors `0.2·expiresIn`.  At `expires_in = 301` the code arms the
timer with 241000 ms while the claimed formula gives 240.8 s = 240800 ms. -/
theorem c3_counterexample :
    (loginSuccess ⟨none, none, none⟩ ⟨0, [], 0, 0⟩ "t1" (some 301)).2.timers =
      [⟨0, 241000⟩] ∧
    specDelaySec 301 * 1000 = 240800 ∧ (241000 : ℚ) ≠ 240800 := by
  refine ⟨by decide, ?_, by norm_num⟩
  rw [specDelaySec, max_eq_right (by norm_num : (60 : ℚ) ≤ 301 / 5)]
  norm_num

/-- C3, amended: every successful login arms the proactive refresh timer with
delay `(expiresIn − max(60, ⌊0.2·expiresIn⌋)) · 1000` ms, where `expiresIn`
defaults to 1800 when `expires_in` is absent or 0; in particular
`expires_in = 1800` arms 1440 s and `expires_in = 120` arms 60 s (the
60-second minimum margin dominating). -/
theorem c3_amended_schedule_arithmetic (s : AuthState) (w : World)
    (tok : String) (expiry : Option Int) :
    ((loginSuccess s w tok expiry).2.timers.getLast? =
       some ⟨w.nextTimerId,
         (effExpiresIn expiry - max 60 (Int.fdiv (effExpiresIn expiry) 5)) *
           1000⟩ ∧
     (loginSuccess s w tok expiry).1.tokenRefreshTimeout =
       some w.nextTimerId ∧
     (loginSuccess s w tok expiry).1.accessToken = some tok) ∧
    (loginSuccess s w tok (some 1800)).2.timers.getLast? =
      some ⟨w.nextTimerId, 1440 * 1000⟩ ∧
    (loginSuccess s w tok (some 120)).2.timers.getLast? =
      some ⟨w.nextTimerId, 60 * 1000⟩ := by
  have key : ∀ e : Option Int,
      (loginSuccess s w tok e).2.timers.getLast? =
        some ⟨w.nextTimerId, refreshInMs (effExpiresIn e)⟩ ∧
      (loginSuccess s w tok e).1.tokenRefreshTimeout = some w.nextTimerId ∧
      (loginSuccess s w tok e).1.accessToken = some tok := by
    intro e
    have h := scheduleTokenRefresh_arms { s with accessToken := some tok } w
      (refreshInMs (effExpiresIn e))
    exact ⟨h.1, h.2.1, h.2.2⟩
  refine ⟨⟨(key expiry).1, (key expiry).2.1, (key expiry).2.2⟩, ?_, ?_⟩
  · have e : refreshInMs (effExpiresIn (some 1800)) = 1440 * 1000 := by decide
    rw [(key (some 1800)).1, e]
  · have e : refreshInMs (effExpiresIn (some 120)) = 60 * 1000 := by decide
    rw [(key (some 120)).1, e]

/-- C8: whenever every pending refresh timer is the one recorded in
`tokenRefreshTimeout` (the state the service maintains), a call to
`scheduleTokenRefresh` cancels it before arming the new one, leaving exactly
one pending refresh timer — the freshly armed one, carrying the requested
delay — and re-establishing the ownership invariant. -/
theorem c8_single_refresh_timer (s : AuthState) (w : World) (d : Int)
    (h : ∀ tm ∈ w.timers, s.tokenRefreshTimeout = some tm.id) :
    (scheduleTokenRefresh s w d).2.timers = [⟨w.nextTimerId, d⟩] ∧
    (scheduleTokenRefresh s w d).1.tokenRefreshTimeout =
      some w.nextTimerId ∧
    ∀ tm ∈ (scheduleTokenRefresh s w d).2.timers,
      (scheduleTokenRefresh s w d).1.tokenRefreshTimeout = some tm.id := by
  cases hSt : s.tokenRefreshTimeout with
  | none =>
    have hnil : w.timers = [] := by
      refine List.eq_nil_iff_forall_not_mem.mpr fun tm hm => ?_
      have := h tm hm
      rw [hSt] at this
      exact absurd this (by simp)
    simp [scheduleTokenRefresh, setTimeoutW, hSt, hnil]
  | some t =>
    have hall : ∀ a ∈ w.timers, a.id = t := by
      intro a ha
      have hh := h a ha
      rw [hSt] at hh
      exact (Option.some_inj.mp hh).symm
    simp only [scheduleTokenRefresh, setTimeoutW, clearTimeoutW, hSt]
    refine ⟨?_, trivial, ?_⟩
    · rw [List.filter_eq_nil_iff.mpr fun a ha => by simp [hall a ha]]
      rfl
    · intro tm hm
      rcases List.mem_append.mp hm with hin | he
      · have := List.of_mem_filter hin
        exact absurd (hall tm (List.mem_of_mem_filter hin)) (by simpa using this)
      · rw [List.mem_singleton.mp he]

/-- C8 witness: a concrete state holding a recorded pending timer; scheduling
leaves exactly the new timer pending. -/
theorem c8_witness :
    (scheduleTokenRefresh ⟨none, some 3, none⟩ ⟨5, [⟨3, 100⟩], 0, 0⟩
      777).2.timers = [⟨5, 777⟩] :=
  (c8_single_refresh_timer ⟨none, some 3, none⟩ ⟨5, [⟨3, 100⟩], 0, 0⟩ 777
    (by decide)).1

/-- C10: `logout` clears the access token and the refresh timer regardless of
whether the revocation request succeeds, a second `logout` leaves the local
state unchanged, and the result is independent of the revocation outcome. -/
theorem c10_logout_idempotent (s : AuthState) (w : World) (b b' : Bool)
    (h : ∀ tm ∈ w.timers, s.tokenRefreshTimeout = some tm.id) :
    (logout s w b).1.accessToken = none ∧
    (logout s w b).1.tokenRefreshTimeout = none ∧
    (logout s w b).2.timers = [] ∧
    logout (logout s w b).1 (logout s w b).2 b' = logout s w b ∧
    logout s w b = logout s w b' := by
  cases hSt : s.tokenRefreshTimeout with
  | none =>
    have hnil : w.timers = [] := by
      refine List.eq_nil_iff_forall_not_mem.mpr fun tm hm => ?_
      have := h tm hm
      rw [hSt] at this
      exact absurd this (by simp)
    simp [logout, hSt, hnil]
  | some t =>
    have hall : ∀ a ∈ w.timers, a.id = t := by
      intro a ha
      have hh := h a ha
      rw [hSt] at hh
      exact (Option.some_inj.mp hh).symm
    simp [logout, clearTimeoutW, hSt]
    exact hall

/-- C10 witness: a concrete logged-in state with a pending refresh timer and a
failing revocation request; the local state is fully cleared. -/
theorem c10_witness :
    (logout ⟨some "t", some 3, none⟩ ⟨4, [⟨3, 50⟩], 0, 0⟩
      false).1.accessToken = none ∧
    (logout ⟨some "t", some 3, none⟩ ⟨4, [⟨3, 50⟩], 0, 0⟩
      false).2.timers = [] := by
  have h := c10_logout_idempotent ⟨some "t", some 3, none⟩
    ⟨4, [⟨3, 50⟩], 0, 0⟩ false true (by decide)
  exact ⟨h.1, h.2.2.1⟩

/-- C2: single-flight refresh.  Any number of `refreshAccessToken` calls
arriving while one refresh is outstanding leave the state and the network
untouched and all receive the same pending promise; and a burst of `n + 1`
calls starting from an idle state issues exactly one refresh network call,
every caller receiving the one promise created by the first call (hence all
observe the token that single round-trip produces). -/
theorem c2_single_flight (n : Nat) (tok : Option String) (tt : Option Nat)
    (p : Nat) (w : World) :
    (refreshBurst n ⟨tok, tt, some p⟩ w =
       (⟨tok, tt, some p⟩, w, List.replicate n p)) ∧
    (refreshBurst (n + 1) ⟨tok, tt, none⟩ w).2.1.refreshNetCalls =
      w.refreshNetCalls + 1 ∧
    (refreshBurst (n + 1) ⟨tok, tt, none⟩ w).2.2 =
      List.replicate (n + 1) w.nextPromiseId := by
  refine ⟨refreshBurst_inflight n tok tt p w, ?_, ?_⟩ <;>
    simp [refreshBurst, refreshStart, refreshBurst_inflight, List.replicate]

/-- C5 (the code violates this claim): when the refresh fetch itself rejects,
nothing after the `await` runs, so `_refreshPromise` is NOT cleared — it
stays pointing at the rejected promise (here promise 5) while the failure
propagates; only the response-arrived-not-ok path (line 95) clears it. -/
theorem c5_refresh_marker_stuck :
    (refreshResume ⟨some "t0", none, some 5⟩ ⟨0, [], 1, 6⟩
      .throws).1.refreshPromise = some 5 ∧
    (refreshResume ⟨some "t0", none, some 5⟩ ⟨0, [], 1, 6⟩ .throws).2.2 =
      false ∧
    (refreshResume ⟨some "t0", none, some 5⟩ ⟨0, [], 1, 6⟩
      .notOk).1.refreshPromise = none := by
  exact ⟨rfl, rfl, rfl⟩

/-- C1, counterexample: first response 401, refresh succeeds with a new token,
retried response again 401 — the code returns that 401 response to the
caller: `logouts = 0` and nothing is thrown, whereas the claim requires the
still-unauthorized retry to surface a failure and force logout. -/
theorem c1_counterexample :
    apiRequestTrace ⟨some "t0", none, none⟩ ⟨1, [], 0, 0⟩ 401
        (.ok "t1" none) 401 =
      ⟨[some "Bearer t0", some "Bearer t1"], 1, 0, false, some 401⟩ := by
  decide

/-- C1 (amended): on a first 401, `apiRequest` performs exactly one
refresh-and-retry cycle and never issues a third attempt: a non-401 first
response is returned directly with no refresh; if the refresh succeeds the
request is resent exactly once with the new token attached and the retried
response — even a second 401 — is returned to the caller without logout; if
the refresh fails, the error is rethrown and logout is forced, with no second
request attempt. -/
theorem c1_amended_bounded_retry (s : AuthState) (w : World)
    (firstStatus : Nat) (ro : FetchOutcome) (retryStatus : Nat) :
    (apiRequestTrace s w firstStatus ro retryStatus).sent.length ≤ 2 ∧
    (apiRequestTrace s w firstStatus ro retryStatus).refreshAttempts =
      (if firstStatus = 401 then 1 else 0) ∧
    (firstStatus ≠ 401 →
      apiRequestTrace s w firstStatus ro retryStatus =
        ⟨[s.accessToken.map bearer], 0, 0, false, some firstStatus⟩) ∧
    (∀ tok expiry, ro = .ok tok expiry → firstStatus = 401 →
      (apiRequestTrace s w firstStatus ro retryStatus).sent =
        [s.accessToken.map bearer, some (bearer tok)] ∧
      (apiRequestTrace s w firstStatus ro retryStatus).logouts = 0 ∧
      (apiRequestTrace s w firstStatus ro retryStatus).threw = false ∧
      (apiRequestTrace s w firstStatus ro retryStatus).returned =
        some retryStatus) ∧
    ((ro = .throws ∨ ro = .notOk) → firstStatus = 401 →
      (apiRequestTrace s w firstStatus ro retryStatus).sent =
        [s.accessToken.map bearer] ∧
      (apiRequestTrace s w firstStatus ro retryStatus).logouts = 1 ∧
      (apiRequestTrace s w firstStatus ro retryStatus).threw = true ∧
      (apiRequest s w firstStatus ro retryStatus).1.accessToken = none) := by
  by_cases h4 : firstStatus = 401
  · subst h4
    cases ro <;>
      simp [apiRequestTrace, apiRequest, refreshStart, refreshResume,
        scheduleTokenRefresh, setTimeoutW, logout_clears_token]
  · simp [apiRequestTrace, apiRequest, h4]

/-- C1 witness: concrete refresh-failure run — one request sent, logout
forced, token cleared. -/
theorem c1_witness :
    (apiRequestTrace ⟨some "t0", none, none⟩ ⟨1, [], 0, 0⟩ 401 .notOk
      200).sent = [some "Bearer t0"] ∧
    (apiRequestTrace ⟨some "t0", none, none⟩ ⟨1, [], 0, 0⟩ 401 .notOk
      200).logouts = 1 := by
  have h := (c1_amended_bounded_retry ⟨some "t0", none, none⟩ ⟨1, [], 0, 0⟩
    401 .notOk 200).2.2.2.2 (Or.inr rfl) rfl
  exact ⟨h.1, h.2.1⟩

/-- C9: a call to `apiRequest` while no access token is held still sends the
request — the first attempt always goes out, and its `Authorization` header
is absent when `accessToken` is null. -/
theorem c9_request_without_token (w : World) (tt : Option Nat)
    (rp : Option Nat) (firstStatus : Nat) (ro : FetchOutcome)
    (retryStatus : Nat) :
    (apiRequestTrace ⟨none, tt, rp⟩ w firstStatus ro retryStatus).sent.head? =
      some none ∧
    1 ≤ (apiRequestTrace ⟨none, tt, rp⟩ w firstStatus ro
      retryStatus).sent.length := by
  by_cases h4 : firstStatus = 401
  · subst h4
    cases ro <;> simp [apiRequestTrace, apiRequest, refreshStart, refreshResume]
  · simp [apiRequestTrace, apiRequest, h4]

/-- C4, counterexample: a poll of a tracked processing task whose status
request throws an error that is neither a reported failed status nor the
404 condition (here a network-type error, whose error object carries no
`response` field).  The error is surfaced, but `setTaskStatus` is never
called in the catch, so `taskStatus` stays "processing" and the 5-second
interval remains armed — further status requests are issued, contradicting
the claim that polling stops and the task is marked terminal. -/
theorem c4_counterexample :
    (SideBar.pollTaskStatus
        ⟨some "j1", some "processing", none, true, "ingest", "p", "sel"⟩
        (.throws none)).1.error = some "Failed to check Program status" ∧
    (SideBar.pollTaskStatus
        ⟨some "j1", some "processing", none, true, "ingest", "p", "sel"⟩
        (.throws none)).1.taskStatus = some "processing" ∧
    SideBar.pollingEffect (SideBar.pollTaskStatus
        ⟨some "j1", some "processing", none, true, "ingest", "p", "sel"⟩
        (.throws none)).1 = some 5000 := by
  decide

/-- C4 (amended): on any polling error other than the (intended-to-be
suppressed) `e.response?.status === 404` case, the tracker surfaces the error
and resets loading, program action and selection, but does not mark the task
terminal: `taskStatus` is left unchanged, so polling activity is exactly what
it was before — in particular it continues while the status remains
"processing". -/
theorem c4_amended_unknown_error (s : SideBar.TrackerState)
    (respStatus : Option Nat) (h : respStatus ≠ some 404) :
    (SideBar.pollTaskStatus s (.throws respStatus)).1 =
      { s with error := some "Failed to check Program status",
               loading := false, programAction := "",
               selectedProgram := "" } ∧
    (SideBar.pollTaskStatus s (.throws respStatus)).1.taskStatus =
      s.taskStatus ∧
    SideBar.pollingEffect (SideBar.pollTaskStatus s (.throws respStatus)).1 =
      SideBar.pollingEffect s := by
  refine ⟨by simp [SideBar.pollTaskStatus, h], ?_, ?_⟩ <;>
    simp [SideBar.pollTaskStatus, SideBar.pollingEffect, h]

/-- C4 witness: the concrete unknown-error poll from the counterexample,
via the amended theorem. -/
theorem c4_witness :
    (SideBar.pollTaskStatus
        ⟨some "j1", some "processing", none, true, "ingest", "p", "sel"⟩
        (.throws none)).1 =
      ⟨some "j1", some "processing",
        some "Failed to check Program status", false, "", "p", ""⟩ :=
  (c4_amended_unknown_error
    ⟨some "j1", some "processing", none, true, "ingest", "p", "sel"⟩
    none (by decide)).1

/-- C6: polling for a tracked task is active exactly when its status is
"processing" (the period of the armed interval then being the fixed 5000 ms), and
a poll reply reporting `completed` or `failed` leaves the tracker with no
armed interval — terminal, with no further status requests issued. -/
theorem c6_tracker_termination (s : SideBar.TrackerState)
    (st tid terr : Option String) :
    (SideBar.pollingEffect s = some SideBar.pollIntervalMs ↔
      (SideBar.truthy s.taskId = true ∧ s.taskStatus = some "processing")) ∧
    (SideBar.pollingEffect s = none ∨ SideBar.pollingEffect s = some 5000) ∧
    ((st = some "completed" ∨ st = some "failed") →
      SideBar.pollingEffect
        (SideBar.pollTaskStatus s (.reply st tid terr)).1 = none) := by
  refine ⟨?_, ?_, ?_⟩
  · unfold SideBar.pollingEffect
    split <;> simp_all
  · unfold SideBar.pollingEffect
    split <;> simp [SideBar.pollIntervalMs]
  · rintro (h | h) <;> subst h <;>
      simp [SideBar.pollTaskStatus, SideBar.pollingEffect] <;>
      split_ifs <;> simp_all

/-- C6 witness: a processing task polls at 5000 ms; a reply of `completed`
leaves no armed interval. -/
theorem c6_witness :
    (SideBar.pollingEffect
        ⟨some "j1", some "processing", none, true, "ingest", "p", "sel"⟩ =
      some SideBar.pollIntervalMs ↔
      (SideBar.truthy (some "j1") = true ∧
        (some "processing" : Option String) = some "processing")) ∧
    SideBar.pollingEffect (SideBar.pollTaskStatus
        ⟨some "j1", some "processing", none, true, "ingest", "p", "sel"⟩
        (.reply (some "completed") (some "j1") none)).1 = none := by
  have h := c6_tracker_termination
    ⟨some "j1", some "processing", none, true, "ingest", "p", "sel"⟩
    (some "completed") (some "j1") none
  exact ⟨h.1, h.2.2 (Or.inl rfl)⟩

/-- C7 (the code violates this claim): an HTTP 404 for the status lookup does
not throw (`apiRequest` is fetch-based), so the
`e.response?.status !== 404` suppression never sees it; the parsed 404 body
carries no `status`/`task_id`/`error` fields, so the poll stores an undefined
status.  No error is recorded, but the "processing" condition of the polling
effect now fails: the interval is torn down and polling stops silently,
whereas the claim says polling continues. -/
theorem c7_not_found_halts_polling :
    SideBar.pollingEffect
        ⟨some "j1", some "processing", none, true, "ingest", "p", "sel"⟩ =
      some 5000 ∧
    (SideBar.pollTaskStatus
        ⟨some "j1", some "processing", none, true, "ingest", "p", "sel"⟩
        (.reply none none none)).1.error = none ∧
    (SideBar.pollTaskStatus
        ⟨some "j1", some "processing", none, true, "ingest", "p", "sel"⟩
        (.reply none none none)).1.taskStatus = none ∧
    SideBar.pollingEffect (SideBar.pollTaskStatus
        ⟨some "j1", some "processing", none, true, "ingest", "p", "sel"⟩
        (.reply none none none)).1 = none := by
  decide

end WahlBot
